import Mathlib

/-!
Verification development for the PharmaGuard genomic-to-risk classification
pipeline (variant-file parsing, star-allele/diplotype calling, SNP-gene
calling, warfarin multi-gene composition, risk assessment and the pairwise
drug-interaction lookup).

The definitions below are a shallow embedding of the TypeScript sources
(lib/VCFParser.ts, lib/StarAlleleCalling.ts, lib/VariantPhenotypeMap.ts,
lib/RiskEngine.ts and app/api/analyze/route.ts).  JavaScript strings are
modelled as Lean String values, with the JavaScript string primitives
(split, trim, startsWith, parseInt) re-implemented over the character
list so that they evaluate by kernel reduction; undefined-able values are
Option; JavaScript objects used as string-keyed maps are association
lists with last-write-wins update; numbers used for activity and
confidence scores are exact rationals.
-/

/-! ## JavaScript string and object primitives -/

/-- Splits a character list at every occurrence of a separator character,
keeping empty segments, as the JavaScript split with a one-character
separator does (the empty string yields a single empty segment). -/
def splitOnChar (sep : Char) : List Char → List (List Char)
  | [] => [[]]
  | c :: rest =>
    let r := splitOnChar sep rest
    if c = sep then [] :: r
    else
      match r with
      | h :: t => (c :: h) :: t
      | [] => [[c]]

/-- The variant of splitOnChar that splits at every character satisfying a
predicate: models a JavaScript split on a character class such as the
genotype-separator class of slash and pipe. -/
def splitOnPred (p : Char → Bool) : List Char → List (List Char)
  | [] => [[]]
  | c :: rest =>
    let r := splitOnPred p rest
    if p c then [] :: r
    else
      match r with
      | h :: t => (c :: h) :: t
      | [] => [[c]]

/-- JavaScript split with a one-character separator. -/
def jsSplit (s : String) (sep : Char) : List String :=
  (splitOnChar sep s.data).map String.mk

/-- JavaScript split on the genotype-separator character class. -/
def jsSplitPred (s : String) (p : Char → Bool) : List String :=
  (splitOnPred p s.data).map String.mk

/-- JavaScript startsWith. -/
def jsStartsWith (s p : String) : Bool := p.data.isPrefixOf s.data

/-- ASCII whitespace recognised by the trim model. -/
def isWs (c : Char) : Bool := c = ' ' || c = '\t' || c = '\n' || c = '\r'

/-- JavaScript trim (restricted to the ASCII whitespace occurring in the
inputs in scope). -/
def jsTrim (s : String) : String :=
  String.mk (((s.data.dropWhile isWs).reverse.dropWhile isWs).reverse)

/-- Numeric value of a decimal digit character. -/
def digitVal (c : Char) : Nat := c.toNat - '0'.toNat

/-- Value of a list of decimal digit characters. -/
def natOfDigits (l : List Char) : Nat :=
  l.foldl (fun acc c => acc * 10 + digitVal c) 0

/-- Model of the JavaScript parseInt on the non-negative decimal inputs in
scope: leading whitespace is skipped, the longest leading digit run is
read, and no digits at all is NaN, modelled as none. -/
def jsParseIntNat (s : String) : Option Nat :=
  let digits := ((jsTrim s).data).takeWhile Char.isDigit
  if digits = [] then none else some (natOfDigits digits)

/-- JavaScript truthiness of a possibly-undefined string: undefined and the
empty string are falsy. -/
def jsTruthyS : Option String → Bool
  | none => false
  | some s => s ≠ ""

/-- JavaScript "a || b" for a possibly-undefined string with a string
default. -/
def jsOrStr (o : Option String) (d : String) : String :=
  match o with
  | some s => if s = "" then d else s
  | none => d

/-- Display of a possibly-undefined string inside a template literal
(undefined prints as the word undefined). -/
def jsShowOptStr (o : Option String) : String :=
  match o with
  | some s => s
  | none => "undefined"

/-- Display of a possibly-NaN number inside a template literal. -/
def jsShowOptNat (o : Option Nat) : String :=
  match o with
  | some n => toString n
  | none => "NaN"

/-- Assignment into a JavaScript object used as a string-keyed map: an
existing key keeps its position and gets the new value, a new key is
appended. -/
def objSet (m : List (String × String)) (k v : String) : List (String × String) :=
  if (m.map Prod.fst).contains k then
    m.map (fun p => if p.1 = k then (k, v) else p)
  else m ++ [(k, v)]

/-- Object property read; the keys produced by objSet are unique, so the
first match is the value. -/
def objGet (m : List (String × String)) (k : String) : Option String :=
  m.lookup k

/-! ## Variant record model and the variant-file parser (lib/VCFParser.ts)

The parser's metadata extraction (fileformat, reference, contig names) is
an output no later stage or property below reads, and it is not part of
the embedding; everything else in parseVCF is. -/

/-- One parsed variant record (interface VCFVariant).  Fields that
JavaScript can leave undefined are Option; the identifier field is
guaranteed by the parser (a line whose ID column is out of range throws,
see parseVariantLine). -/
structure VCFVariant where
  chromosome : Option String
  position : Option Nat
  id : String
  ref : Option String
  alt : Option String
  qual : Option String
  filter : Option String
  info : List (String × String)
  format : Option String
  samples : Option (List String)
  gene : Option String
  starAllele : Option String
  rsID : Option String
deriving DecidableEq

/-- Result of parseVCF. -/
structure VCFParseResult where
  success : Bool
  variants : List VCFVariant
  totalVariants : Nat
  pharmacogeneticVariants : Nat
  errors : List String
deriving DecidableEq

/-- VCFParser.REQUIRED_COLUMNS. -/
def REQUIRED_COLUMNS : List String :=
  ["#CHROM", "POS", "ID", "REF", "ALT", "QUAL", "FILTER", "INFO"]

/-- VCFParser.parseInfoField: semicolon-separated key=value pairs; a bare
key, or a key with an empty value, gets the value "true"; an undefined,
empty or dot field yields the empty map. -/
def parseInfoField (o : Option String) : List (String × String) :=
  match o with
  | none => []
  | some s =>
    if s = "" ∨ s = "." then []
    else
      (jsSplit s ';').foldl (fun acc pair =>
        let parts := jsSplit pair '='
        let key := parts.headD ""
        if key = "" then acc
        else
          let value :=
            match parts.get? 1 with
            | none => "true"
            | some v => if v = "" then "true" else v
          objSet acc key value) []

/-- VCFParser.createColumnMapping collapsed with its use: the index a
column name maps to (the last occurrence wins, as repeated assignment
into a JavaScript object does), or none when the header lacks the name. -/
def colIndex (headers : List String) (name : String) : Option Nat :=
  ((headers.enum.filter (fun p => p.2 = name)).getLast?).map Prod.fst

/-- Field of a data line at a mapped column index; none models the
undefined read when the mapping or the field is missing. -/
def fieldAt (fields : List String) (idx : Option Nat) : Option String :=
  idx.bind fields.get?

/-- VCFParser.parseVariantLine.  A line with fewer than eight tab-separated
fields throws the insufficient-columns error.  The FORMAT and sample
columns are never read: the returned record always has format and samples
unset.  When the ID column index falls outside the line the later
id.startsWith call throws a TypeError, which the caller catches; the
parsed record is discarded, so that case is an error result here. -/
def parseVariantLine (line : String) (headers : List String) :
    Except String VCFVariant :=
  let fields := jsSplit line '\t'
  if fields.length < 8 then Except.error "Insufficient columns in variant line"
  else
    let fieldOf := fun (name : String) => fieldAt fields (colIndex headers name)
    match fieldOf "ID" with
    | none => Except.error "TypeError: cannot read startsWith of undefined"
    | some idv =>
      let info := parseInfoField (fieldOf "INFO")
      let geneV := if jsTruthyS (objGet info "GENE") then objGet info "GENE" else none
      let starV := if jsTruthyS (objGet info "STAR") then objGet info "STAR" else none
      let rsInfo := if jsTruthyS (objGet info "RS") then objGet info "RS" else none
      let rsV :=
        if jsStartsWith idv "rs" ∧ ¬ jsTruthyS rsInfo then some idv else rsInfo
      Except.ok
        { chromosome := fieldOf "#CHROM"
          position := (fieldOf "POS").bind jsParseIntNat
          id := idv
          ref := fieldOf "REF"
          alt := fieldOf "ALT"
          qual := fieldOf "QUAL"
          filter := fieldOf "FILTER"
          info := info
          format := none
          samples := none
          gene := geneV
          starAllele := starV
          rsID := rsV }

/-- SUPPORTED_GENES (lib/DrugGeneMap.ts). -/
def SUPPORTED_GENES : List String :=
  ["CYP2D6", "CYP2C9", "CYP2C19", "SLCO1B1", "TPMT", "DPYD"]

/-- VCFParser.isPharmacogeneticRsID allow-list. -/
def pharmacogeneticRsIDs : List String :=
  ["rs3892097", "rs35742686", "rs5030655", "rs16947",
   "rs4244285", "rs4986893", "rs12248560",
   "rs1799853", "rs1057910",
   "rs1142345", "rs1800460", "rs1800462",
   "rs4149056",
   "rs3918290", "rs55886062"]

/-- VCFParser.isPharmacogeneticVariant. -/
def isPharmacogeneticVariant (v : VCFVariant) : Bool :=
  (jsTruthyS v.gene && SUPPORTED_GENES.contains (jsOrStr v.gene ""))
    || (jsTruthyS v.rsID && pharmacogeneticRsIDs.contains (jsOrStr v.rsID ""))

/-- Index of the column-header line: the first non-blank line starting with
the #CHROM token (VCFParser.parseHeader's headerEndIndex). -/
def headerEndIndex (lines : List String) : Option Nat :=
  lines.findIdx? (fun l => jsStartsWith l "#CHROM")

/-- VCFParser.parseVCF. -/
def parseVCF (content : String) : VCFParseResult :=
  let lines := (jsSplit content '\n').filter (fun l => jsTrim l ≠ "")
  if lines = [] then
    { success := false, variants := [], totalVariants := 0,
      pharmacogeneticVariants := 0, errors := ["Empty VCF file"] }
  else
    match headerEndIndex lines with
    | none =>
      { success := false, variants := [], totalVariants := 0,
        pharmacogeneticVariants := 0,
        errors := ["Invalid VCF format: missing column header"] }
    | some hIdx =>
      let headers := jsSplit (lines.getD hIdx "") '\t'
      if ¬ (REQUIRED_COLUMNS.all (fun c => headers.contains c)) then
        { success := false, variants := [], totalVariants := 0,
          pharmacogeneticVariants := 0,
          errors := ["Invalid VCF format: missing required columns"] }
      else
        let variantLines := lines.drop (hIdx + 1)
        let acc := variantLines.enum.foldl
          (fun (acc : List VCFVariant × List String) (p : Nat × String) =>
            if jsTrim p.2 = "" || jsStartsWith p.2 "#" then acc
            else
              match parseVariantLine p.2 headers with
              | Except.ok v => (acc.1 ++ [v], acc.2)
              | Except.error msg =>
                (acc.1,
                 acc.2 ++ ["Error parsing line " ++ toString (hIdx + p.1 + 2)
                   ++ ": " ++ msg]))
          ([], [])
        { success := acc.2.isEmpty || !acc.1.isEmpty
          variants := acc.1
          totalVariants := acc.1.length
          pharmacogeneticVariants :=
            (acc.1.filter isPharmacogeneticVariant).length
          errors := acc.2 }

/-! ## Star-allele reference tables (lib/StarAlleleCalling.ts) -/

/-- interface StarAlleleDefinition.  The function class is one of normal,
decreased, no_function, increased. -/
structure StarAlleleDefinition where
  allele : String
  definingVariants : List String
  functionClass : String
  activityScore : ℚ
  clinicalFunction : String

/-- interface GeneStarAlleleConfig. -/
structure GeneStarAlleleConfig where
  gene : String
  referenceAllele : String
  alleleDefinitions : List StarAlleleDefinition
  rsToAlleleMap : List (String × String)
  phasingMethod : String

/-- CYP2D6_CONFIG. -/
def CYP2D6_CONFIG : GeneStarAlleleConfig :=
  { gene := "CYP2D6", referenceAllele := "*1",
    phasingMethod := "rule_based_haplotype_inference",
    alleleDefinitions :=
      [⟨"*1", [], "normal", 1, "Normal function"⟩,
       ⟨"*2", ["rs16947"], "normal", 1, "Normal function"⟩,
       ⟨"*3", ["rs35742686"], "no_function", 0, "No function"⟩,
       ⟨"*4", ["rs3892097"], "no_function", 0, "No function"⟩,
       ⟨"*5", [], "no_function", 0, "Gene deletion"⟩,
       ⟨"*6", ["rs5030655"], "no_function", 0, "No function"⟩,
       ⟨"*9", ["rs5030656"], "decreased", 1/2, "Decreased function"⟩,
       ⟨"*10", ["rs1065852"], "decreased", 1/4, "Decreased function"⟩,
       ⟨"*17", ["rs28371706"], "decreased", 1/2, "Decreased function"⟩,
       ⟨"*29", ["rs59421388"], "decreased", 1/2, "Decreased function"⟩,
       ⟨"*41", ["rs28371725"], "decreased", 1/2, "Decreased function"⟩],
    rsToAlleleMap :=
      [("rs16947", "*2"), ("rs35742686", "*3"), ("rs3892097", "*4"),
       ("rs5030655", "*6"), ("rs5030656", "*9"), ("rs1065852", "*10"),
       ("rs28371706", "*17"), ("rs59421388", "*29"), ("rs28371725", "*41")] }

/-- CYP2C19_CONFIG. -/
def CYP2C19_CONFIG : GeneStarAlleleConfig :=
  { gene := "CYP2C19", referenceAllele := "*1",
    phasingMethod := "rule_based_haplotype_inference",
    alleleDefinitions :=
      [⟨"*1", [], "normal", 1, "Normal function"⟩,
       ⟨"*2", ["rs4244285"], "no_function", 0, "No function"⟩,
       ⟨"*3", ["rs4986893"], "no_function", 0, "No function"⟩,
       ⟨"*4", ["rs28399504"], "no_function", 0, "No function"⟩,
       ⟨"*6", ["rs56337013"], "no_function", 0, "No function"⟩,
       ⟨"*9", ["rs17884712"], "decreased", 1/2, "Decreased function"⟩,
       ⟨"*17", ["rs12248560", "rs12769205"], "increased", 3/2, "Increased function"⟩],
    rsToAlleleMap :=
      [("rs4244285", "*2"), ("rs4986893", "*3"), ("rs28399504", "*4"),
       ("rs56337013", "*6"), ("rs17884712", "*9"), ("rs12248560", "*17"),
       ("rs12769205", "*17")] }

/-- CYP2C9_CONFIG. -/
def CYP2C9_CONFIG : GeneStarAlleleConfig :=
  { gene := "CYP2C9", referenceAllele := "*1",
    phasingMethod := "rule_based_haplotype_inference",
    alleleDefinitions :=
      [⟨"*1", [], "normal", 1, "Normal function"⟩,
       ⟨"*2", ["rs1799853"], "decreased", 1/2, "Decreased function"⟩,
       ⟨"*3", ["rs1057910"], "no_function", 0, "No function"⟩,
       ⟨"*5", ["rs28371686"], "no_function", 0, "No function"⟩,
       ⟨"*6", ["rs9332131"], "no_function", 0, "No function"⟩,
       ⟨"*8", ["rs7900194"], "decreased", 1/2, "Decreased function"⟩,
       ⟨"*11", ["rs28371685"], "decreased", 1/2, "Decreased function"⟩,
       ⟨"*12", ["rs9332239"], "decreased", 1/2, "Decreased function"⟩],
    rsToAlleleMap :=
      [("rs1799853", "*2"), ("rs1057910", "*3"), ("rs28371686", "*5"),
       ("rs9332131", "*6"), ("rs7900194", "*8"), ("rs28371685", "*11"),
       ("rs9332239", "*12")] }

/-- TPMT_CONFIG. -/
def TPMT_CONFIG : GeneStarAlleleConfig :=
  { gene := "TPMT", referenceAllele := "*1",
    phasingMethod := "rule_based_haplotype_inference",
    alleleDefinitions :=
      [⟨"*1", [], "normal", 1, "Normal function"⟩,
       ⟨"*2", ["rs1800462"], "no_function", 0, "No function"⟩,
       ⟨"*3A", ["rs1800460", "rs1142345"], "no_function", 0, "No function"⟩,
       ⟨"*3B", ["rs1800460"], "no_function", 0, "No function"⟩,
       ⟨"*3C", ["rs1142345"], "no_function", 0, "No function"⟩],
    rsToAlleleMap :=
      [("rs1800462", "*2"), ("rs1800460", "*3B"), ("rs1142345", "*3C")] }

/-- DPYD_CONFIG. -/
def DPYD_CONFIG : GeneStarAlleleConfig :=
  { gene := "DPYD", referenceAllele := "*1",
    phasingMethod := "rule_based_haplotype_inference",
    alleleDefinitions :=
      [⟨"*1", [], "normal", 1, "Normal function"⟩,
       ⟨"*2A", ["rs3918290"], "no_function", 0, "No function"⟩,
       ⟨"*13", ["rs55886062"], "no_function", 0, "No function"⟩],
    rsToAlleleMap := [("rs3918290", "*2A"), ("rs55886062", "*13")] }

/-- SLCO1B1_CONFIG. -/
def SLCO1B1_CONFIG : GeneStarAlleleConfig :=
  { gene := "SLCO1B1", referenceAllele := "*1a",
    phasingMethod := "rule_based_haplotype_inference",
    alleleDefinitions :=
      [⟨"*1a", [], "normal", 1, "Normal function"⟩,
       ⟨"*1b", ["rs2306283"], "normal", 1, "Normal function"⟩,
       ⟨"*5", ["rs4149056"], "decreased", 1/2, "Decreased function"⟩,
       ⟨"*15", ["rs2306283", "rs4149056"], "decreased", 1/2, "Decreased function"⟩],
    rsToAlleleMap := [("rs4149056", "*5"), ("rs2306283", "*1b")] }

/-- GENE_CONFIGS registry. -/
def GENE_CONFIGS : List (String × GeneStarAlleleConfig) :=
  [("CYP2D6", CYP2D6_CONFIG), ("CYP2C19", CYP2C19_CONFIG),
   ("CYP2C9", CYP2C9_CONFIG), ("TPMT", TPMT_CONFIG),
   ("DPYD", DPYD_CONFIG), ("SLCO1B1", SLCO1B1_CONFIG)]

/-! ## SNP-gene tables (VKORC1, CYP4F2) -/

/-- One row of an SNP interpretation table; callSNPGene reads exactly the
display, effect and dose-modifier fields of a row (the per-config extras,
sensitivity and star-allele, are recomputed elsewhere from the genotype
and are not read through this table). -/
structure SNPInterpretation where
  genotypeDisplay : String
  effect : String
  doseModifier : String
deriving DecidableEq

/-- Static configuration of an SNP-based gene. -/
structure SNPGeneConfig where
  gene : String
  rsid : String
  chromosome : String
  position : Nat
  ref : String
  alt : String
  interpretations : List (String × SNPInterpretation)

/-- VKORC1_SNP_CONFIG. -/
def VKORC1_SNP_CONFIG : SNPGeneConfig :=
  { gene := "VKORC1", rsid := "rs9923231", chromosome := "16",
    position := 31096368, ref := "G", alt := "A",
    interpretations :=
      [("GG", ⟨"G/G", "Normal warfarin sensitivity", "Standard dose"⟩),
       ("GA", ⟨"G/A", "Increased warfarin sensitivity", "Reduce initial dose by ~25%"⟩),
       ("AG", ⟨"G/A", "Increased warfarin sensitivity", "Reduce initial dose by ~25%"⟩),
       ("AA", ⟨"A/A", "High warfarin sensitivity", "Reduce initial dose by ~50%"⟩),
       ("0/0", ⟨"G/G", "Normal warfarin sensitivity (ref)", "Standard dose"⟩),
       ("0/1", ⟨"G/A", "Increased warfarin sensitivity", "Reduce initial dose by ~25%"⟩),
       ("1/0", ⟨"G/A", "Increased warfarin sensitivity", "Reduce initial dose by ~25%"⟩),
       ("1/1", ⟨"A/A", "High warfarin sensitivity", "Reduce initial dose by ~50%"⟩)] }

/-- CYP4F2_SNP_CONFIG. -/
def CYP4F2_SNP_CONFIG : SNPGeneConfig :=
  { gene := "CYP4F2", rsid := "rs2108622", chromosome := "19",
    position := 15990431, ref := "C", alt := "T",
    interpretations :=
      [("CC", ⟨"C/C", "Normal vitamin K metabolism", "No adjustment"⟩),
       ("CT", ⟨"C/T", "Slightly reduced vitamin K metabolism", "May need ~5-10% higher dose"⟩),
       ("TC", ⟨"C/T", "Slightly reduced vitamin K metabolism", "May need ~5-10% higher dose"⟩),
       ("TT", ⟨"T/T", "Reduced vitamin K metabolism", "May need ~10-15% higher dose"⟩),
       ("0/0", ⟨"C/C", "Normal vitamin K metabolism (ref)", "No adjustment"⟩),
       ("0/1", ⟨"C/T", "Slightly reduced vitamin K metabolism", "May need ~5-10% higher dose"⟩),
       ("1/0", ⟨"C/T", "Slightly reduced vitamin K metabolism", "May need ~5-10% higher dose"⟩),
       ("1/1", ⟨"T/T", "Reduced vitamin K metabolism", "May need ~10-15% higher dose"⟩)] }

/-! ## The star-allele calling engine (class StarAlleleCaller) -/

/-- interface DetectedVariant. -/
structure DetectedVariant where
  rsid : String
  genotype : String
  chromosome : Option String
  position : Option Nat
  ref : Option String
  alt : Option String
  gene : String
  starAlleleImpact : String
  functionImpact : String
deriving DecidableEq

/-- interface DiplotypeResult. -/
structure DiplotypeResult where
  diplotype : String
  allele1 : String
  allele2 : String
  activityScore : ℚ
  phenotype : String
  confidenceScore : ℚ
  detectedVariants : List DetectedVariant
  phasingMethod : String
  guidelineSource : String

/-- A gene-relevant variant paired with its extracted genotype (the spread
type VCFVariant with genotype that filterGeneVariants builds). -/
structure GenoVariant where
  var : VCFVariant
  genotype : String
deriving DecidableEq

/-- A candidate allele identified from one record. -/
structure AlleleCandidate where
  allele : String
  zygosity : String
  rsID : String
deriving DecidableEq

/-- StarAlleleCaller.extractGenotype: the first sample field before the
first colon when a non-empty samples array exists, else the truthy GT or
GENOTYPE annotation value, else null. -/
def extractGenotype (v : VCFVariant) : Option String :=
  match v.samples with
  | some (s :: _) => some ((jsSplit s ':').headD s)
  | _ =>
    if jsTruthyS (objGet v.info "GT") then objGet v.info "GT"
    else if jsTruthyS (objGet v.info "GENOTYPE") then objGet v.info "GENOTYPE"
    else none

/-- The loop body of StarAlleleCaller.filterGeneVariants for one record:
keep it when it matches the gene by relevant reference-SNP id or by gene
annotation and its extracted genotype is truthy and is neither 0/0 nor
0|0. -/
def fgvStep (gene : String) (config : GeneStarAlleleConfig) (v : VCFVariant) :
    Option GenoVariant :=
  let hasRelevantRsID :=
    jsTruthyS v.rsID && (config.rsToAlleleMap.map Prod.fst).contains (jsOrStr v.rsID "")
  let hasGeneMatch := v.gene = some gene
  if ¬ (hasRelevantRsID = true ∨ hasGeneMatch) then none
  else
    match extractGenotype v with
    | some g =>
      if g ≠ "" ∧ g ≠ "0/0" ∧ g ≠ "0|0" then some ⟨v, g⟩ else none
    | none => none

/-- StarAlleleCaller.filterGeneVariants. -/
def filterGeneVariants (gene : String) (variants : List VCFVariant)
    (config : GeneStarAlleleConfig) : List GenoVariant :=
  variants.filterMap (fgvStep gene config)

/-- StarAlleleCaller.determineZygosity: split on slash or pipe; anything
other than exactly two components is heterozygous; equal components are
homozygous. -/
def determineZygosity (genotype : String) : String :=
  let alleles := jsSplitPred genotype (fun c => c = '/' || c = '|')
  match alleles with
  | [a, b] => if a = b then "homozygous" else "heterozygous"
  | _ => "heterozygous"

/-- StarAlleleCaller.identifyStarAlleles. -/
def identifyStarAlleles (variants : List GenoVariant)
    (config : GeneStarAlleleConfig) : List AlleleCandidate :=
  variants.filterMap (fun gv =>
    if ¬ jsTruthyS gv.var.rsID then none
    else
      match config.rsToAlleleMap.lookup (jsOrStr gv.var.rsID "") with
      | none => none
      | some star => some ⟨star, determineZygosity gv.genotype, jsOrStr gv.var.rsID ""⟩)

/-- Insertion-order deduplication, as building a JavaScript Set from an
array and spreading it back does. -/
def jsSetDedup (l : List String) : List String :=
  l.foldl (fun acc a => if acc.contains a then acc else acc ++ [a]) []

/-- StarAlleleCaller.assignDiplotype: no candidate gives the reference
twice; the first homozygous candidate gives that allele twice; a single
(heterozygous) candidate gives reference plus it; several heterozygous
candidates give reference plus the sole distinct label, or the first two
distinct labels in input order. -/
def assignDiplotype (detected : List AlleleCandidate)
    (config : GeneStarAlleleConfig) : String × String :=
  match detected with
  | [] => (config.referenceAllele, config.referenceAllele)
  | d :: rest =>
    match (d :: rest).find? (fun a => a.zygosity = "homozygous") with
    | some h => (h.allele, h.allele)
    | none =>
      match rest with
      | [] => (config.referenceAllele, d.allele)
      | _ :: _ =>
        match jsSetDedup ((d :: rest).map (fun a => a.allele)) with
        | [u] => (config.referenceAllele, u)
        | u1 :: u2 :: _ => (u1, u2)
        | [] => (config.referenceAllele, config.referenceAllele)

/-- StarAlleleCaller.calculateActivityScore: sum of the two alleles'
defined scores, an unlisted allele scoring 1. -/
def calculateActivityScore (allele1 allele2 : String)
    (config : GeneStarAlleleConfig) : ℚ :=
  let getAlleleScore := fun (a : String) =>
    match config.alleleDefinitions.find? (fun d => d.allele = a) with
    | some d => d.activityScore
    | none => 1
  getAlleleScore allele1 + getAlleleScore allele2

/-- The default activity-score ladder reached when no gene-specific branch
returns. -/
def defaultScoreLadder (s : ℚ) : String :=
  if s = 0 then "PM"
  else if s < 1 then "IM"
  else if s ≤ 2 then "NM"
  else "URM"

/-- StarAlleleCaller.activityScoreToPhenotype, with each gene block's
fall-through to the default ladder preserved (in the CYP2C19 block the
score-above-2.5 test sits after the score-above-2 test and the CYP2C9
block ends with an unconditional intermediate result). -/
def activityScoreToPhenotype (gene : String) (s : ℚ) : String :=
  if gene = "CYP2D6" then
    if s = 0 then "PM"
    else if 0 < s ∧ s < 5/4 then "IM"
    else if 5/4 ≤ s ∧ s ≤ 9/4 then "NM"
    else if s > 9/4 then "URM"
    else defaultScoreLadder s
  else if gene = "CYP2C9" then
    if s = 0 ∨ s ≤ 1/2 then "PM"
    else if 1/2 < s ∧ s ≤ 3/2 then "IM"
    else if s ≥ 2 then "NM"
    else "IM"
  else if gene = "CYP2C19" then
    if s = 0 then "PM"
    else if 0 < s ∧ s < 3/2 then "IM"
    else if 3/2 ≤ s ∧ s ≤ 2 then "NM"
    else if s > 2 then "RM"
    else if s > 5/2 then "URM"
    else defaultScoreLadder s
  else defaultScoreLadder s

/-- The per-record body of StarAlleleCaller.buildDetectedVariantsList. -/
def bdvStep (config : GeneStarAlleleConfig) (gv : GenoVariant) : DetectedVariant :=
    let starAllele :=
      if jsTruthyS gv.var.rsID then config.rsToAlleleMap.lookup (jsOrStr gv.var.rsID "")
      else none
    let alleleDef :=
      match starAllele with
      | some sa =>
        config.alleleDefinitions.find? (fun d : StarAlleleDefinition => d.allele = sa)
      | none => none
    { rsid := jsOrStr gv.var.rsID
        (jsShowOptStr gv.var.chromosome ++ ":" ++ jsShowOptNat gv.var.position)
      genotype := gv.genotype
      chromosome := gv.var.chromosome
      position := gv.var.position
      ref := gv.var.ref
      alt := gv.var.alt
      gene := config.gene
      starAlleleImpact := jsOrStr starAllele "Unknown"
      functionImpact :=
        jsOrStr (alleleDef.map (fun d : StarAlleleDefinition => d.clinicalFunction))
          "Unknown" }

/-- StarAlleleCaller.buildDetectedVariantsList. -/
def buildDetectedVariantsList (variants : List GenoVariant)
    (config : GeneStarAlleleConfig) : List DetectedVariant :=
  variants.map (bdvStep config)

/-- StarAlleleCaller.calculateConfidence. -/
def calculateConfidence (variants : List GenoVariant)
    (detectedAlleles : List AlleleCandidate) : ℚ :=
  let base : ℚ := 7/10
  let withVariants := base + min ((variants.length : ℚ) * (1/20)) (3/20)
  let withAlleles := if detectedAlleles.length > 0 then withVariants + 1/10 else withVariants
  min withAlleles (19/20)

/-- Digit characters of a label, the non-digits stripped. -/
def digitsOf (s : String) : List Char := s.data.filter Char.isDigit

/-- The numeric sort key of an allele label: parseInt of the digits, a
digit-free label keying as 0. -/
def numKey (s : String) : Nat :=
  if digitsOf s = [] then 0 else natOfDigits (digitsOf s)

/-- StarAlleleCaller.formatDiplotype: the two labels ordered by numeric
key (a stable two-element sort), joined with a slash. -/
def formatDiplotype (allele1 allele2 : String) : String :=
  if numKey allele1 ≤ numKey allele2 then allele1 ++ "/" ++ allele2
  else allele2 ++ "/" ++ allele1

/-- StarAlleleCaller.getGuidelineSource. -/
def getGuidelineSource (gene : String) : String :=
  let sources : List (String × String) :=
    [("CYP2D6", "CPIC Guideline for CYP2D6 and Codeine Therapy (2023 Update)"),
     ("CYP2C19", "CPIC Guideline for CYP2C19 and Clopidogrel Therapy (2022 Update)"),
     ("CYP2C9", "CPIC Guideline for Pharmacogenetics-Guided Warfarin Dosing (2017 Update)"),
     ("TPMT", "CPIC Guideline for Thiopurines and TPMT/NUDT15 (2018 Update)"),
     ("DPYD", "CPIC Guideline for Fluoropyrimidines and DPYD (2017 Update)"),
     ("SLCO1B1", "CPIC Guideline for SLCO1B1 and Statin-Associated Musculoskeletal Symptoms (2022 Update)")]
  jsOrStr (sources.lookup gene) "CPIC Guidelines"

/-- StarAlleleCaller.createUnknownResult (the variants argument is taken
but not read, as in the source). -/
def createUnknownResult (_gene : String) (_variants : List VCFVariant) : DiplotypeResult :=
  { diplotype := "Unknown", allele1 := "Unknown", allele2 := "Unknown",
    activityScore := -1, phenotype := "Unknown", confidenceScore := 3/10,
    detectedVariants := [], phasingMethod := "none",
    guidelineSource := "Not available" }

/-- StarAlleleCaller.callDiplotype. -/
def callDiplotype (gene : String) (variants : List VCFVariant) : DiplotypeResult :=
  match GENE_CONFIGS.lookup gene with
  | none => createUnknownResult gene variants
  | some config =>
    let geneVariants := filterGeneVariants gene variants config
    let detectedAlleles := identifyStarAlleles geneVariants config
    let assigned := assignDiplotype detectedAlleles config
    let activityScore := calculateActivityScore assigned.1 assigned.2 config
    let phenotype := activityScoreToPhenotype gene activityScore
    let detectedVariantsList := buildDetectedVariantsList geneVariants config
    let confidenceScore := calculateConfidence geneVariants detectedAlleles
    { diplotype := formatDiplotype assigned.1 assigned.2
      allele1 := assigned.1
      allele2 := assigned.2
      activityScore := activityScore
      phenotype := phenotype
      confidenceScore := confidenceScore
      detectedVariants := detectedVariantsList
      phasingMethod := config.phasingMethod
      guidelineSource := getGuidelineSource gene }


/-! ## SNP-gene calling and the warfarin multi-gene composition -/

/-- interface SNPGeneResult. -/
structure SNPGeneResult where
  gene : String
  rsid : String
  genotype : String
  genotypeDisplay : String
  clinicalEffect : String
  doseModifier : String
  detectedVariant : Option DetectedVariant
deriving DecidableEq

/-- The two SNP-based genes accepted by callSNPGene. -/
inductive SnpGene where
  | VKORC1
  | CYP4F2
deriving DecidableEq

/-- The configuration callSNPGene selects for a gene. -/
def snpConfigOf : SnpGene → SNPGeneConfig
  | SnpGene.VKORC1 => VKORC1_SNP_CONFIG
  | SnpGene.CYP4F2 => CYP4F2_SNP_CONFIG

/-- The reference-genotype row of an SNP table (the 0/0 key; present in
both configurations, the default row is never reached). -/
def snpRefInterpretation (config : SNPGeneConfig) : SNPInterpretation :=
  (config.interpretations.lookup "0/0").getD ⟨"", "", ""⟩

/-- The result callSNPGene returns when the defining record is absent or
carries the reference genotype. -/
def snpReferenceResult (config : SNPGeneConfig) : SNPGeneResult :=
  { gene := config.gene, rsid := config.rsid, genotype := "0/0",
    genotypeDisplay := (snpRefInterpretation config).genotypeDisplay,
    clinicalEffect := (snpRefInterpretation config).effect,
    doseModifier := (snpRefInterpretation config).doseModifier,
    detectedVariant := none }

/-- The genotype callSNPGene extracts: the first sample field before the
first colon when a non-empty samples array exists, else 0/0. -/
def snpSampleGenotype (v : VCFVariant) : String :=
  match v.samples with
  | some (s :: _) => (jsSplit s ':').headD s
  | _ => "0/0"

/-- StarAlleleCaller.callSNPGene: locate the single defining record by its
fixed reference-SNP id; absent, or present with 0/0 or 0|0, gives the
reference result; otherwise the genotype is looked up in the
interpretation table, an unknown genotype string falling back to the
reference row. -/
def callSNPGene (gene : SnpGene) (variants : List VCFVariant) : SNPGeneResult :=
  let config := snpConfigOf gene
  match variants.find? (fun v => v.rsID = some config.rsid) with
  | none => snpReferenceResult config
  | some variant =>
    let genotype := snpSampleGenotype variant
    if genotype = "0/0" ∨ genotype = "0|0" then snpReferenceResult config
    else
      let interp := (config.interpretations.lookup genotype).getD
        (snpRefInterpretation config)
      { gene := config.gene, rsid := config.rsid, genotype := genotype,
        genotypeDisplay := interp.genotypeDisplay,
        clinicalEffect := interp.effect,
        doseModifier := interp.doseModifier,
        detectedVariant := some
          { rsid := config.rsid, genotype := genotype,
            chromosome := variant.chromosome, position := variant.position,
            ref := variant.ref, alt := variant.alt, gene := config.gene,
            starAlleleImpact := "N/A", functionImpact := interp.effect } }

/-- StarAlleleCaller.calculateWarfarinOverallRisk. -/
def calculateWarfarinOverallRisk (cyp2c9Result : DiplotypeResult)
    (vkorc1Result : SNPGeneResult) : String :=
  let cyp2c9PM := cyp2c9Result.activityScore ≤ 1/2
  let cyp2c9IM := cyp2c9Result.activityScore ≤ 3/2 ∧ ¬ cyp2c9PM
  let vkorc1Sensitive :=
    vkorc1Result.genotype = "1/1" ∨ vkorc1Result.genotype = "0/1"
      ∨ vkorc1Result.genotype = "1/0"
  if cyp2c9PM ∧ vkorc1Sensitive then "SEVERE"
  else if cyp2c9PM ∨ (cyp2c9IM ∧ vkorc1Sensitive) then "HIGH"
  else if cyp2c9IM ∨ vkorc1Sensitive then "MODERATE"
  else "LOW"

/-- route.ts mapWarfarinRiskToLabel. -/
def mapWarfarinRiskToLabel (risk : String) : String :=
  if risk = "LOW" then "Safe"
  else if risk = "MODERATE" then "Adjust Dosage"
  else if risk = "HIGH" then "Toxic"
  else if risk = "SEVERE" then "Ineffective"
  else "Unknown"

/-- The risk label of the warfarin multi-gene handler
(handleWarfarinMultiGeneAnalysis): the per-gene calls of
callWarfarinMultiGene followed by the handler's sufficiency test; no
detected variant at all, or no detected VKORC1 variant, gives the
explicit Unknown label, otherwise the composite risk is mapped to the
response label. -/
def warfarinRiskLabel (variants : List VCFVariant) : String :=
  let cyp2c9Result := callDiplotype "CYP2C9" variants
  let vkorc1Result := callSNPGene SnpGene.VKORC1 variants
  let cyp4f2Result := callSNPGene SnpGene.CYP4F2 variants
  let vkorc1Detected := vkorc1Result.detectedVariant ≠ none
  let cyp4f2Detected := cyp4f2Result.detectedVariant ≠ none
  let hasSufficientData :=
    vkorc1Detected ∨ cyp4f2Detected ∨ cyp2c9Result.detectedVariants.length > 0
  if ¬ hasSufficientData then "Unknown"
  else if ¬ vkorc1Detected then "Unknown"
  else mapWarfarinRiskToLabel (calculateWarfarinOverallRisk cyp2c9Result vkorc1Result)

/-! ## Diplotype construction in the phenotype-map module
(lib/VariantPhenotypeMap.ts) -/

/-- Lexicographic comparison of strings by character code, as the default
JavaScript array sort comparator orders strings (the labels in scope are
ASCII, where code-unit and code-point order agree). -/
def jsLexLt : List Char → List Char → Bool
  | [], [] => false
  | [], _ :: _ => true
  | _ :: _, [] => false
  | a :: as, b :: bs =>
    if a.toNat < b.toNat then true
    else if b.toNat < a.toNat then false
    else jsLexLt as bs

/-- constructDiplotype: the two labels sorted with the default string
sort, joined with a slash. -/
def constructDiplotype (allele1 allele2 : String) : String :=
  if jsLexLt allele2.data allele1.data then allele2 ++ "/" ++ allele1
  else allele1 ++ "/" ++ allele2

/-! ## The risk engine (lib/RiskEngine.ts) -/

/-- The supported drugs (type SupportedDrug). -/
inductive Drug where
  | CODEINE
  | WARFARIN
  | CLOPIDOGREL
  | SIMVASTATIN
  | AZATHIOPRINE
  | FLUOROURACIL
deriving DecidableEq, Fintype

/-- The string value of a drug identifier. -/
def drugName : Drug → String
  | Drug.CODEINE => "CODEINE"
  | Drug.WARFARIN => "WARFARIN"
  | Drug.CLOPIDOGREL => "CLOPIDOGREL"
  | Drug.SIMVASTATIN => "SIMVASTATIN"
  | Drug.AZATHIOPRINE => "AZATHIOPRINE"
  | Drug.FLUOROURACIL => "FLUOROURACIL"

/-- getPrimaryGene (lib/DrugGeneMap.ts). -/
def getPrimaryGene : Drug → String
  | Drug.CODEINE => "CYP2D6"
  | Drug.WARFARIN => "CYP2C9"
  | Drug.CLOPIDOGREL => "CYP2C19"
  | Drug.SIMVASTATIN => "SLCO1B1"
  | Drug.AZATHIOPRINE => "TPMT"
  | Drug.FLUOROURACIL => "DPYD"

/-- interface Phenotype (lib/VariantPhenotypeMap.ts): a display name, an
activity class string and a confidence. -/
structure Phenotype where
  name : String
  activity : String
  confidence : ℚ

/-- One risk rule: label, base confidence and severity.  The attached
free-text clinical recommendation is response prose no property below
reads and is not part of the embedding. -/
structure RiskRule where
  risk_label : String
  confidence_score : ℚ
  severity : String

/-- DRUG_RISK_RULES, keyed by drug and phenotype activity class. -/
def DRUG_RISK_RULES (drug : Drug) : List (String × RiskRule) :=
  match drug with
  | Drug.CODEINE =>
    [("Poor", ⟨"INEFFECTIVE", 95/100, "HIGH"⟩),
     ("Intermediate", ⟨"ADJUST_DOSAGE", 88/100, "MODERATE"⟩),
     ("Normal", ⟨"SAFE", 93/100, "LOW"⟩),
     ("Ultrarapid", ⟨"TOXIC", 91/100, "CRITICAL"⟩)]
  | Drug.CLOPIDOGREL =>
    [("Poor", ⟨"INEFFECTIVE", 94/100, "HIGH"⟩),
     ("Intermediate", ⟨"ADJUST_DOSAGE", 87/100, "MODERATE"⟩),
     ("Normal", ⟨"SAFE", 92/100, "LOW"⟩),
     ("Rapid", ⟨"SAFE", 89/100, "LOW"⟩)]
  | Drug.WARFARIN =>
    [("Poor", ⟨"ADJUST_DOSAGE", 91/100, "HIGH"⟩),
     ("Intermediate", ⟨"ADJUST_DOSAGE", 88/100, "MODERATE"⟩),
     ("Normal", ⟨"SAFE", 93/100, "LOW"⟩)]
  | Drug.SIMVASTATIN =>
    [("Poor", ⟨"TOXIC", 92/100, "HIGH"⟩),
     ("Intermediate", ⟨"ADJUST_DOSAGE", 88/100, "MODERATE"⟩),
     ("Normal", ⟨"SAFE", 94/100, "LOW"⟩)]
  | Drug.AZATHIOPRINE =>
    [("Poor", ⟨"TOXIC", 96/100, "CRITICAL"⟩),
     ("Intermediate", ⟨"ADJUST_DOSAGE", 91/100, "HIGH"⟩),
     ("Normal", ⟨"SAFE", 95/100, "LOW"⟩)]
  | Drug.FLUOROURACIL =>
    [("Poor", ⟨"TOXIC", 94/100, "CRITICAL"⟩),
     ("Intermediate", ⟨"ADJUST_DOSAGE", 89/100, "HIGH"⟩),
     ("Normal", ⟨"SAFE", 93/100, "LOW"⟩)]

/-- A variant as echoed in a pharmacogenomic profile. -/
structure ProfileVariant where
  rsID : Option String
  chromosome : Option String
  position : Option Nat
  ref : Option String
  alt : Option String
  gene : Option String
  starAllele : Option String
deriving DecidableEq

/-- The projection of an input record into a profile's detected-variants
entry. -/
def projectVariant (v : VCFVariant) : ProfileVariant :=
  { rsID := v.rsID, chromosome := v.chromosome, position := v.position,
    ref := v.ref, alt := v.alt, gene := v.gene, starAllele := v.starAllele }

/-- interface RiskAssessment. -/
structure RiskAssessment where
  risk_label : String
  confidence_score : ℚ
  severity : String

/-- interface PharmacogenomicProfile. -/
structure PharmacogenomicProfile where
  primary_gene : String
  diplotype : String
  phenotype : String
  detected_variants : List ProfileVariant

/-- interface RiskEngineResult (the clinical-recommendation prose field is
not part of the embedding, see RiskRule). -/
structure RiskEngineResult where
  risk_assessment : RiskAssessment
  pharmacogenomic_profile : PharmacogenomicProfile

/-- RiskEngine.assessRisk: a missing phenotype gives the fixed UNKNOWN
assessment; otherwise the rule for the drug and activity class (falling
back to the drug's Normal rule) with confidence scaled by the phenotype
confidence; in both cases the profile echoes the projection of exactly
the variants that were passed in. -/
def assessRisk (drug : Drug) (phenotype : Option Phenotype)
    (variants : List VCFVariant) (diplotype : String) : RiskEngineResult :=
  match phenotype with
  | none =>
    { risk_assessment := ⟨"UNKNOWN", 2/5, "NONE"⟩,
      pharmacogenomic_profile :=
        { primary_gene := getPrimaryGene drug, diplotype := diplotype,
          phenotype := "Unknown",
          detected_variants := variants.map projectVariant } }
  | some p =>
    let riskRule :=
      ((DRUG_RISK_RULES drug).lookup p.activity).getD
        (((DRUG_RISK_RULES drug).lookup "Normal").getD ⟨"UNKNOWN", 0, "NONE"⟩)
    { risk_assessment :=
        ⟨riskRule.risk_label,
         min (riskRule.confidence_score * p.confidence) 1,
         riskRule.severity⟩,
      pharmacogenomic_profile :=
        { primary_gene := getPrimaryGene drug, diplotype := diplotype,
          phenotype := p.name,
          detected_variants := variants.map projectVariant } }

/-! ## The pairwise drug-interaction lookup (route.ts) -/

/-- One emitted interaction entry. -/
structure InteractionEntry where
  drug_a : String
  drug_b : String
  severity : String
deriving DecidableEq

/-- The fixed knownInteractions table, keyed by the hyphen-joined drug
pair (the mechanism notes of the source rows are not read by the
detection loop). -/
def knownInteractions : List (String × String) :=
  [("WARFARIN-SIMVASTATIN", "HIGH"),
   ("WARFARIN-CLOPIDOGREL", "MODERATE"),
   ("CODEINE-FLUOROURACIL", "LOW"),
   ("AZATHIOPRINE-FLUOROURACIL", "MODERATE")]

/-- The table lookup for an ordered pair, trying both key directions as
the loop body does. -/
def lookupInteraction (a b : Drug) : Option String :=
  match knownInteractions.lookup (drugName a ++ "-" ++ drugName b) with
  | some s => some s
  | none => knownInteractions.lookup (drugName b ++ "-" ++ drugName a)

/-- The ordered index pairs of the nested loop, outer index ascending and
inner index strictly after it. -/
def pairsAfter : List Drug → List (Drug × Drug)
  | [] => []
  | d :: rest => (rest.map (fun e => (d, e))) ++ pairsAfter rest

/-- The loop body of detectDrugInteractions for one ordered pair: emit
the entry when the lookup (in either key direction) hits the table. -/
def detectStep (p : Drug × Drug) : Option InteractionEntry :=
  match lookupInteraction p.1 p.2 with
  | some sev => some ⟨drugName p.1, drugName p.2, sev⟩
  | none => none

/-- detectDrugInteractions. -/
def detectDrugInteractions (drugs : List Drug) : List InteractionEntry :=
  (pairsAfter drugs).filterMap detectStep

/-! ## Concrete inputs used by the verification results -/

/-- A column-header line that announces FORMAT and one sample column. -/
def sampleHeaderLine : String :=
  "#CHROM\tPOS\tID\tREF\tALT\tQUAL\tFILTER\tINFO\tFORMAT\tSAMPLE1"

/-- A data line whose FORMAT column is GT and whose sample column carries
the per-sample genotype 0/1. -/
def sampleDataLine : String :=
  "1\t100\trs9923231\tG\tA\t.\tPASS\t.\tGT\t0/1"

/-- A well-formed variant file consisting of the two lines above. -/
def sampleVcfContent : String :=
  "##fileformat=VCFv4.2\n" ++ sampleHeaderLine ++ "\n" ++ sampleDataLine

/-- The VKORC1 defining record carrying the heterozygous genotype with the
slash separator. -/
def vkorc1SlashVariant : VCFVariant :=
  { chromosome := some "16", position := some 31096368, id := "rs9923231",
    ref := some "G", alt := some "A", qual := some ".", filter := some "PASS",
    info := [], format := some "GT", samples := some ["0/1"], gene := none,
    starAllele := none, rsID := some "rs9923231" }

/-- The same record with the pipe separator in the genotype. -/
def vkorc1PipeVariant : VCFVariant :=
  { vkorc1SlashVariant with samples := some ["0|1"] }

/-- A CYP2D6 no-function marker with heterozygous genotype carried in the
annotation map. -/
def cyp2d6HetVariant : VCFVariant :=
  { chromosome := some "22", position := some 42524947, id := "rs3892097",
    ref := some "C", alt := some "T", qual := some ".", filter := some "PASS",
    info := [("GENE", "CYP2D6"), ("GT", "0/1")], format := none,
    samples := none, gene := some "CYP2D6", starAllele := none,
    rsID := some "rs3892097" }

/-- The detected-variants entry the caller builds for cyp2d6HetVariant. -/
def cyp2d6DetectedEntry : DetectedVariant :=
  { rsid := "rs3892097", genotype := "0/1", chromosome := some "22",
    position := some 42524947, ref := some "C", alt := some "T",
    gene := "CYP2D6", starAlleleImpact := "*4", functionImpact := "No function" }

/-- A CYP2D6 marker record whose genotype is homozygous reference. -/
def refGtVariant : VCFVariant :=
  { chromosome := some "22", position := some 42524947, id := "rs3892097",
    ref := some "C", alt := some "T", qual := some ".", filter := some "PASS",
    info := [("GENE", "CYP2D6"), ("GT", "0/0")], format := none,
    samples := none, gene := some "CYP2D6", starAllele := none,
    rsID := some "rs3892097" }

/-! ## C1 -/

/-- C1: the claim reads that parseVariantLine copies a per-sample genotype
(FORMAT column plus sample columns) onto the parsed record so that
extractGenotype observes it.  On a well-formed file whose data line
carries the FORMAT value GT and the sample genotype 0/1, the parser
leaves both the format and samples fields unset and extractGenotype
yields nothing: the parser never reads the per-sample columns, although
the record type declares them and both downstream genotype readers
consult them first. -/
theorem parser_drops_per_sample_genotype :
    (jsSplit sampleDataLine '\t').get? 8 = some "GT"
    ∧ (jsSplit sampleDataLine '\t').get? 9 = some "0/1"
    ∧ (parseVCF sampleVcfContent).success = true
    ∧ (parseVCF sampleVcfContent).variants.map
        (fun v => (v.format, v.samples, extractGenotype v)) = [(none, none, none)] := by
  decide

/-! ## C10 -/

/-- C10: for the gene CYP2C19, activityScoreToPhenotype never returns the
ultrarapid code URM (the score-above-2.5 test is dominated by the
score-above-2 test before it), every score above 2 yields RM, and every
result lies in PM, IM, NM, RM. -/
theorem cyp2c19_no_ultrarapid (s : ℚ) :
    activityScoreToPhenotype "CYP2C19" s ≠ "URM"
    ∧ (2 < s → activityScoreToPhenotype "CYP2C19" s = "RM")
    ∧ (activityScoreToPhenotype "CYP2C19" s = "PM"
        ∨ activityScoreToPhenotype "CYP2C19" s = "IM"
        ∨ activityScoreToPhenotype "CYP2C19" s = "NM"
        ∨ activityScoreToPhenotype "CYP2C19" s = "RM") := by
  have h1 : ("CYP2C19" : String) ≠ "CYP2D6" := by decide
  have h2 : ("CYP2C19" : String) ≠ "CYP2C9" := by decide
  unfold activityScoreToPhenotype defaultScoreLadder
  rw [if_neg h1, if_neg h2, if_pos rfl]
  refine ⟨?_, ?_, ?_⟩
  · split_ifs with a b c <;> try decide
    all_goals exfalso
    all_goals linarith
  · intro hs
    split_ifs with a b c <;> try rfl
    all_goals exfalso
    all_goals try obtain ⟨b1, b2⟩ := b
    all_goals try obtain ⟨c1, c2⟩ := c
    all_goals linarith
  · split_ifs with a b c <;> try decide
    all_goals exfalso
    all_goals linarith

/-- Witness for C10 at the concrete score 3. -/
theorem cyp2c19_no_ultrarapid_witness :
    activityScoreToPhenotype "CYP2C19" 3 = "RM" :=
  (cyp2c19_no_ultrarapid 3).2.1 (by norm_num)

/-! ## C5 -/

/-- C5 counterexample: the two diplotype-string constructors disagree.
The numeric canonical ordering of the labels *2 and *10 is *2 before *10
(formatDiplotype), while constructDiplotype sorts the labels as plain
strings and emits *10 before *2. -/
theorem diplotype_constructors_disagree :
    formatDiplotype "*2" "*10" = "*2/*10"
    ∧ constructDiplotype "*2" "*10" = "*10/*2"
    ∧ numKey "*2" ≤ numKey "*10"
    ∧ constructDiplotype "*2" "*10" ≠ formatDiplotype "*2" "*10" := by
  decide

/-- Strict lexicographic character-code order is asymmetric. -/
lemma jsLexLt_asymm : ∀ x y : List Char, jsLexLt x y = true → jsLexLt y x = false := by
  intro x
  induction x with
  | nil =>
    intro y h
    cases y with
    | nil => simp [jsLexLt] at h
    | cons b bs => simp [jsLexLt]
  | cons a as ih =>
    intro y h
    cases y with
    | nil => simp [jsLexLt] at h
    | cons b bs =>
      simp only [jsLexLt] at h ⊢
      by_cases hab : a.toNat < b.toNat
      · rw [if_neg (by omega), if_pos hab]
      · rw [if_neg hab] at h
        by_cases hba : b.toNat < a.toNat
        · rw [if_pos hba] at h
          exact absurd h (by simp)
        · rw [if_neg hba] at h
          rw [if_neg hba, if_neg hab]
          exact ih bs h

/-- C5 (amended): formatDiplotype joins the two labels with a slash in
nondecreasing numeric-key order (digits of the label, non-digits
stripped), while constructDiplotype joins them in nondecreasing plain
string order; each output is the input pair, possibly swapped. -/
theorem diplotype_constructor_orderings (a b : String) :
    (∃ x y, formatDiplotype a b = x ++ "/" ++ y ∧ numKey x ≤ numKey y
      ∧ ((x = a ∧ y = b) ∨ (x = b ∧ y = a)))
    ∧ (∃ x y, constructDiplotype a b = x ++ "/" ++ y
      ∧ jsLexLt y.data x.data = false
      ∧ ((x = a ∧ y = b) ∨ (x = b ∧ y = a))) := by
  constructor
  · unfold formatDiplotype
    by_cases h : numKey a ≤ numKey b
    · exact ⟨a, b, by rw [if_pos h], h, Or.inl ⟨rfl, rfl⟩⟩
    · exact ⟨b, a, by rw [if_neg h], le_of_not_le h, Or.inr ⟨rfl, rfl⟩⟩
  · unfold constructDiplotype
    by_cases h : jsLexLt b.data a.data = true
    · exact ⟨b, a, by rw [if_pos h], jsLexLt_asymm _ _ h, Or.inr ⟨rfl, rfl⟩⟩
    · exact ⟨a, b, by rw [if_neg h], by simpa using h, Or.inl ⟨rfl, rfl⟩⟩

/-! ## C6 -/

/-- C6 counterexample: the interpretation lookup is not independent of the
genotype separator.  The pipe genotype 0|1 on the VKORC1 defining record
is not a key of the interpretation table, so it falls back to the
reference row, while 0/1 maps to the increased-sensitivity row. -/
theorem snp_gene_pipe_genotype_disagrees :
    snpSampleGenotype vkorc1PipeVariant = "0|1"
    ∧ snpSampleGenotype vkorc1SlashVariant = "0/1"
    ∧ (callSNPGene SnpGene.VKORC1 [vkorc1SlashVariant]).clinicalEffect
        = "Increased warfarin sensitivity"
    ∧ (callSNPGene SnpGene.VKORC1 [vkorc1PipeVariant]).clinicalEffect
        = "Normal warfarin sensitivity (ref)"
    ∧ (callSNPGene SnpGene.VKORC1 [vkorc1PipeVariant]).clinicalEffect
        ≠ (callSNPGene SnpGene.VKORC1 [vkorc1SlashVariant]).clinicalEffect := by
  decide

/-- C6 (amended): callSNPGene returns the fixed reference interpretation
when the defining record is absent or carries the genotype 0/0 or 0|0;
otherwise the observed genotype is looked up in the interpretation table
and a genotype string absent from the table (which includes every
pipe-separated genotype other than 0|0) falls back to the reference row,
so the lookup is not separator-independent. -/
theorem callSNPGene_reference_and_fallback (g : SnpGene) (variants : List VCFVariant) :
    (variants.find? (fun v => v.rsID = some (snpConfigOf g).rsid) = none →
      callSNPGene g variants = snpReferenceResult (snpConfigOf g))
    ∧ (∀ v, variants.find? (fun v => v.rsID = some (snpConfigOf g).rsid) = some v →
        (snpSampleGenotype v = "0/0" ∨ snpSampleGenotype v = "0|0") →
        callSNPGene g variants = snpReferenceResult (snpConfigOf g))
    ∧ (∀ v, variants.find? (fun v => v.rsID = some (snpConfigOf g).rsid) = some v →
        ¬ (snpSampleGenotype v = "0/0" ∨ snpSampleGenotype v = "0|0") →
        (callSNPGene g variants).genotype = snpSampleGenotype v
        ∧ (callSNPGene g variants).detectedVariant ≠ none
        ∧ ((callSNPGene g variants).genotypeDisplay,
            (callSNPGene g variants).clinicalEffect,
            (callSNPGene g variants).doseModifier)
          = (fun i : SNPInterpretation => (i.genotypeDisplay, i.effect, i.doseModifier))
              (((snpConfigOf g).interpretations.lookup (snpSampleGenotype v)).getD
                (snpRefInterpretation (snpConfigOf g)))) := by
  refine ⟨?_, ?_, ?_⟩
  · intro h
    simp only [callSNPGene]
    rw [h]
  · intro v hfind hgt
    simp only [callSNPGene]
    rw [hfind]
    dsimp only
    rw [if_pos hgt]
  · intro v hfind hgt
    simp only [callSNPGene]
    rw [hfind]
    dsimp only
    rw [if_neg hgt]
    exact ⟨rfl, by simp, rfl⟩

/-- Witness for C6 at the empty variant list: no VKORC1 defining record,
so the call returns the reference interpretation. -/
theorem callSNPGene_reference_and_fallback_witness :
    callSNPGene SnpGene.VKORC1 [] = snpReferenceResult (snpConfigOf SnpGene.VKORC1) :=
  (callSNPGene_reference_and_fallback SnpGene.VKORC1 []).1 (by decide)

/-! ## C2 -/

/-- callDiplotype unfolded at a supported gene. -/
lemma callDiplotype_eq (gene : String) (variants : List VCFVariant)
    (config : GeneStarAlleleConfig) (h : GENE_CONFIGS.lookup gene = some config) :
    callDiplotype gene variants =
      { diplotype := formatDiplotype
          (assignDiplotype (identifyStarAlleles (filterGeneVariants gene variants config) config) config).1
          (assignDiplotype (identifyStarAlleles (filterGeneVariants gene variants config) config) config).2
        allele1 := (assignDiplotype (identifyStarAlleles (filterGeneVariants gene variants config) config) config).1
        allele2 := (assignDiplotype (identifyStarAlleles (filterGeneVariants gene variants config) config) config).2
        activityScore := calculateActivityScore
          (assignDiplotype (identifyStarAlleles (filterGeneVariants gene variants config) config) config).1
          (assignDiplotype (identifyStarAlleles (filterGeneVariants gene variants config) config) config).2 config
        phenotype := activityScoreToPhenotype gene (calculateActivityScore
          (assignDiplotype (identifyStarAlleles (filterGeneVariants gene variants config) config) config).1
          (assignDiplotype (identifyStarAlleles (filterGeneVariants gene variants config) config) config).2 config)
        confidenceScore := calculateConfidence (filterGeneVariants gene variants config)
          (identifyStarAlleles (filterGeneVariants gene variants config) config)
        detectedVariants := buildDetectedVariantsList (filterGeneVariants gene variants config) config
        phasingMethod := config.phasingMethod
        guidelineSource := getGuidelineSource gene } := by
  unfold callDiplotype
  rw [h]

/-- When the VKORC1 record was detected, the warfarin handler maps the
composite risk instead of returning Unknown. -/
lemma warfarinRiskLabel_of_detected (variants : List VCFVariant)
    (h : (callSNPGene SnpGene.VKORC1 variants).detectedVariant ≠ none) :
    warfarinRiskLabel variants = mapWarfarinRiskToLabel
      (calculateWarfarinOverallRisk (callDiplotype "CYP2C9" variants)
        (callSNPGene SnpGene.VKORC1 variants)) := by
  unfold warfarinRiskLabel
  rw [if_neg (fun hn => hn (Or.inl h)), if_neg (fun hn => hn h)]

/-- The CYP2C9 activity score on the single VKORC1 record is the
reference score 2. -/
lemma cyp2c9_score_on_vkorc1_record :
    (callDiplotype "CYP2C9" [vkorc1SlashVariant]).activityScore = 2 := by
  rw [callDiplotype_eq "CYP2C9" [vkorc1SlashVariant] CYP2C9_CONFIG rfl]
  have h : assignDiplotype (identifyStarAlleles
      (filterGeneVariants "CYP2C9" [vkorc1SlashVariant] CYP2C9_CONFIG)
      CYP2C9_CONFIG) CYP2C9_CONFIG = ("*1", "*1") := by decide
  simp only [h]
  unfold calculateActivityScore
  show (1 : ℚ) + 1 = 2
  norm_num

/-- C2 counterexample: a variant list carrying the VKORC1 marker with a
heterozygous genotype but no CYP4F2 rs2108622 record.  The warfarin
handler returns the computed label Adjust Dosage, not the Unknown path,
although a required SNP-gene defining marker is absent. -/
theorem warfarin_missing_cyp4f2_label_computed :
    ([vkorc1SlashVariant].all (fun v => v.rsID ≠ some "rs2108622")) = true
    ∧ warfarinRiskLabel [vkorc1SlashVariant] = "Adjust Dosage"
    ∧ ("Adjust Dosage" : String) ≠ "Unknown" := by
  refine ⟨by decide, ?_, by decide⟩
  rw [warfarinRiskLabel_of_detected [vkorc1SlashVariant] (by decide)]
  have hgt : (callSNPGene SnpGene.VKORC1 [vkorc1SlashVariant]).genotype = "0/1" := by
    decide
  have hrisk : calculateWarfarinOverallRisk (callDiplotype "CYP2C9" [vkorc1SlashVariant])
      (callSNPGene SnpGene.VKORC1 [vkorc1SlashVariant]) = "MODERATE" := by
    simp only [calculateWarfarinOverallRisk]
    rw [cyp2c9_score_on_vkorc1_record, hgt]
    norm_num
  rw [hrisk]
  decide

/-- C2 (amended): whenever the VKORC1 rs9923231 defining marker is absent
from the parsed variants, the warfarin risk label is the explicit
Unknown value (a missing CYP4F2 marker alone does not force it, see the
counterexample). -/
theorem warfarin_missing_vkorc1_label_unknown (variants : List VCFVariant)
    (h : ∀ v ∈ variants, v.rsID ≠ some "rs9923231") :
    warfarinRiskLabel variants = "Unknown" := by
  have hfind : variants.find?
      (fun v => v.rsID = some (snpConfigOf SnpGene.VKORC1).rsid) = none := by
    rw [List.find?_eq_none]
    intro v hv
    simpa using h v hv
  have hvk : callSNPGene SnpGene.VKORC1 variants
      = snpReferenceResult (snpConfigOf SnpGene.VKORC1) := by
    simp only [callSNPGene]
    rw [hfind]
  simp only [warfarinRiskLabel]
  rw [hvk]
  have hnone : (snpReferenceResult (snpConfigOf SnpGene.VKORC1)).detectedVariant
      = none := rfl
  by_cases hs : (snpReferenceResult (snpConfigOf SnpGene.VKORC1)).detectedVariant ≠ none
      ∨ (callSNPGene SnpGene.CYP4F2 variants).detectedVariant ≠ none
      ∨ (callDiplotype "CYP2C9" variants).detectedVariants.length > 0
  · rw [if_neg (fun hn => hn hs), if_pos (fun hvd => hvd hnone)]
  · rw [if_pos hs]

/-- Witness for C2 (amended) at the empty variant list. -/
theorem warfarin_missing_vkorc1_label_unknown_witness :
    warfarinRiskLabel [] = "Unknown" :=
  warfarin_missing_vkorc1_label_unknown [] (by simp)

/-! ## C3 -/

/-- A record whose extracted genotype is homozygous reference. -/
def hasRefGenotype (v : VCFVariant) : Bool :=
  match extractGenotype v with
  | some g => g = "0/0" || g = "0|0"
  | none => false

/-- A homozygous-reference record is dropped by the gene filter. -/
lemma fgvStep_ref_none (gene : String) (config : GeneStarAlleleConfig)
    (v : VCFVariant) (h : hasRefGenotype v = true) : fgvStep gene config v = none := by
  unfold hasRefGenotype at h
  simp only [fgvStep]
  split
  · rfl
  · cases hge : extractGenotype v with
    | none => rfl
    | some g =>
      simp only [hge, Bool.or_eq_true, decide_eq_true_eq] at h
      dsimp only
      rw [if_neg]
      rcases h with h | h <;> simp [h]

/-- Removing the homozygous-reference records first does not change the
gene filter's output. -/
lemma filterGeneVariants_dropRef (gene : String) (variants : List VCFVariant)
    (config : GeneStarAlleleConfig) :
    filterGeneVariants gene (variants.filter (fun v => ! hasRefGenotype v)) config
      = filterGeneVariants gene variants config := by
  induction variants with
  | nil => rfl
  | cons v vs ih =>
    by_cases hv : hasRefGenotype v
    · rw [List.filter_cons_of_neg (by simp [hv])]
      unfold filterGeneVariants at ih ⊢
      rw [List.filterMap_cons, fgvStep_ref_none gene config v hv]
      exact ih
    · rw [List.filter_cons_of_pos (by simp [hv])]
      unfold filterGeneVariants at ih ⊢
      rw [List.filterMap_cons, List.filterMap_cons]
      cases hfv : fgvStep gene config v <;> dsimp only <;> rw [ih]

/-- Every record surviving the gene filter carries a truthy, non-reference
genotype extracted from it. -/
lemma filterGeneVariants_mem {gene : String} {config : GeneStarAlleleConfig}
    {variants : List VCFVariant} {gv : GenoVariant}
    (h : gv ∈ filterGeneVariants gene variants config) :
    gv.var ∈ variants ∧ extractGenotype gv.var = some gv.genotype
      ∧ gv.genotype ≠ "" ∧ gv.genotype ≠ "0/0" ∧ gv.genotype ≠ "0|0" := by
  unfold filterGeneVariants at h
  rw [List.mem_filterMap] at h
  obtain ⟨v, hv, hf⟩ := h
  simp only [fgvStep] at hf
  split at hf
  · exact absurd hf (by simp)
  · cases hge : extractGenotype v with
    | none => rw [hge] at hf; exact absurd hf (by simp)
    | some g =>
      rw [hge] at hf
      dsimp only at hf
      split at hf
      · rename_i hcond
        cases hf
        exact ⟨hv, hge, hcond.1, hcond.2.1, hcond.2.2⟩
      · exact absurd hf (by simp)

/-- Every entry of a diplotype call's detected-variants list carries a
non-reference genotype. -/
lemma callDiplotype_detected_nonref (gene : String) (variants : List VCFVariant) :
    ∀ d ∈ (callDiplotype gene variants).detectedVariants,
      d.genotype ≠ "0/0" ∧ d.genotype ≠ "0|0" := by
  intro d hd
  unfold callDiplotype at hd
  cases hcfg : GENE_CONFIGS.lookup gene with
  | none =>
    rw [hcfg] at hd
    exact absurd hd (by simp [createUnknownResult])
  | some config =>
    rw [hcfg] at hd
    dsimp only at hd
    unfold buildDetectedVariantsList at hd
    rw [List.mem_map] at hd
    obtain ⟨gv, hgv, rfl⟩ := hd
    have hm := filterGeneVariants_mem hgv
    exact ⟨hm.2.2.2.1, hm.2.2.2.2⟩

/-- C3: a record whose extracted genotype is 0/0 or 0|0 never contributes
to a diplotype call: deleting all such records changes neither the gene
filter's output (hence neither the allele candidates nor the diplotype
assignment) nor the whole call, and every reported detected variant has a
non-reference genotype. -/
theorem reference_genotype_never_contributes (gene : String)
    (variants : List VCFVariant) :
    (∀ config, filterGeneVariants gene
        (variants.filter (fun v => ! hasRefGenotype v)) config
      = filterGeneVariants gene variants config)
    ∧ callDiplotype gene (variants.filter (fun v => ! hasRefGenotype v))
      = callDiplotype gene variants
    ∧ ∀ d ∈ (callDiplotype gene variants).detectedVariants,
        d.genotype ≠ "0/0" ∧ d.genotype ≠ "0|0" := by
  refine ⟨fun config => filterGeneVariants_dropRef gene variants config, ?_,
    callDiplotype_detected_nonref gene variants⟩
  unfold callDiplotype
  cases hcfg : GENE_CONFIGS.lookup gene with
  | none => rfl
  | some config =>
    dsimp only
    rw [filterGeneVariants_dropRef]

/-- Witness for C3 on a CYP2D6 no-function marker with heterozygous
genotype: the entry it contributes has a non-reference genotype. -/
theorem reference_genotype_never_contributes_witness :
    cyp2d6DetectedEntry.genotype ≠ "0/0" ∧ cyp2d6DetectedEntry.genotype ≠ "0|0" :=
  (reference_genotype_never_contributes "CYP2D6" [cyp2d6HetVariant]).2.2
    cyp2d6DetectedEntry (by decide)

/-! ## C4 -/

/-- C4: assignDiplotype follows the stated priority order, first match
wins: no candidates give the reference twice; a homozygous candidate (the
first one found) gives that allele twice; a single heterozygous candidate
gives reference plus it; several heterozygous candidates with a single
distinct label give reference plus that label; otherwise the first two
distinct labels in input order are taken.  The last part ties the allele
pair of callDiplotype at a supported gene to this assignment on the
candidates identified from the filtered records. -/
theorem assignDiplotype_priority_order (detected : List AlleleCandidate)
    (config : GeneStarAlleleConfig) :
    (detected = [] →
      assignDiplotype detected config = (config.referenceAllele, config.referenceAllele))
    ∧ (∀ c, detected.find? (fun a => a.zygosity = "homozygous") = some c →
        assignDiplotype detected config = (c.allele, c.allele))
    ∧ (∀ c, detected = [c] →
        detected.find? (fun a => a.zygosity = "homozygous") = none →
        assignDiplotype detected config = (config.referenceAllele, c.allele))
    ∧ (2 ≤ detected.length →
        detected.find? (fun a => a.zygosity = "homozygous") = none →
        (∀ u, jsSetDedup (detected.map (fun a => a.allele)) = [u] →
          assignDiplotype detected config = (config.referenceAllele, u))
        ∧ (∀ u1 u2 us, jsSetDedup (detected.map (fun a => a.allele)) = u1 :: u2 :: us →
          assignDiplotype detected config = (u1, u2)))
    ∧ (∀ gene variants cfg, GENE_CONFIGS.lookup gene = some cfg →
        ((callDiplotype gene variants).allele1, (callDiplotype gene variants).allele2)
          = assignDiplotype
              (identifyStarAlleles (filterGeneVariants gene variants cfg) cfg) cfg) := by
  refine ⟨?_, ?_, ?_, ?_, ?_⟩
  · intro h
    subst h
    rfl
  · intro c hc
    cases detected with
    | nil => simp at hc
    | cons d rest =>
      unfold assignDiplotype
      dsimp only
      rw [hc]
  · intro c hdet hnone
    subst hdet
    unfold assignDiplotype
    dsimp only
    rw [hnone]
  · intro hlen hnone
    constructor
    · intro u hded
      cases detected with
      | nil => simp at hlen
      | cons d rest =>
        cases rest with
        | nil => simp at hlen
        | cons e rest2 =>
          unfold assignDiplotype
          dsimp only
          rw [hnone]
          dsimp only
          rw [hded]
    · intro u1 u2 us hded
      cases detected with
      | nil => simp at hlen
      | cons d rest =>
        cases rest with
        | nil => simp at hlen
        | cons e rest2 =>
          unfold assignDiplotype
          dsimp only
          rw [hnone]
          dsimp only
          rw [hded]
  · intro gene variants cfg hcfg
    unfold callDiplotype
    rw [hcfg]

/-- Witness for C4: two heterozygous candidates with two distinct labels
give the first two distinct labels in input order. -/
theorem assignDiplotype_priority_order_witness :
    assignDiplotype [⟨"*4", "heterozygous", "rs3892097"⟩,
      ⟨"*3", "heterozygous", "rs35742686"⟩] CYP2D6_CONFIG = ("*4", "*3") :=
  ((assignDiplotype_priority_order
      [⟨"*4", "heterozygous", "rs3892097"⟩, ⟨"*3", "heterozygous", "rs35742686"⟩]
      CYP2D6_CONFIG).2.2.2.1 (by decide) (by decide)).2 "*4" "*3" [] (by decide)

/-! ## C7 -/

/-- C7 (amended): every entry of the risk engine's detected-variants
output is the projection of a record of the variant list the engine was
given (no fabrication); the engine itself applies no genotype filter, so
the non-reference guarantee is the diplotype caller's: every entry of its
detected-variants list has a non-reference genotype. -/
theorem detected_variants_traceability :
    (∀ (drug : Drug) (phenotype : Option Phenotype) (variants : List VCFVariant)
        (diplotype : String),
      ∀ d ∈ (assessRisk drug phenotype variants
              diplotype).pharmacogenomic_profile.detected_variants,
        ∃ v ∈ variants, d = projectVariant v)
    ∧ (∀ gene variants, ∀ d ∈ (callDiplotype gene variants).detectedVariants,
        d.genotype ≠ "0/0" ∧ d.genotype ≠ "0|0") := by
  constructor
  · intro drug phenotype variants diplotype d hd
    cases phenotype <;>
      (simp only [assessRisk] at hd
       rw [List.mem_map] at hd
       obtain ⟨v, hv, rfl⟩ := hd
       exact ⟨v, hv, rfl⟩)
  · exact callDiplotype_detected_nonref

/-- Witness for C7 on a one-record list with no phenotype. -/
theorem detected_variants_traceability_witness :
    ∃ v ∈ [cyp2d6HetVariant], projectVariant cyp2d6HetVariant = projectVariant v :=
  detected_variants_traceability.1 Drug.CODEINE none [cyp2d6HetVariant] "*1/*4"
    (projectVariant cyp2d6HetVariant) (by decide)

/-- C7 counterexample: the risk engine echoes whatever list it is given,
including a record whose extracted genotype is homozygous reference, so a
variant present only with genotype 0/0 can be emitted in
detected_variants. -/
theorem assessRisk_echoes_reference_genotype_variant :
    extractGenotype refGtVariant = some "0/0"
    ∧ (assessRisk Drug.CODEINE
        (some { name := "Normal Metabolizer", activity := "Normal",
                confidence := 93/100 })
        [refGtVariant] "*1/*1").pharmacogenomic_profile.detected_variants
      = [projectVariant refGtVariant] := by
  exact ⟨by decide, rfl⟩

/-! ## C8 -/

/-- C8: parseVCF succeeds exactly when no error was accumulated or at
least one variant was parsed; and an input whose non-blank lines never
start with the #CHROM token (in particular the empty input) yields
failure, an empty variant list and at least one fatal-format error. -/
theorem parseVCF_success_semantics (content : String) :
    ((parseVCF content).success = true ↔
      ((parseVCF content).errors = [] ∨ (parseVCF content).variants ≠ []))
    ∧ ((∀ l ∈ jsSplit content '\n', jsTrim l ≠ "" → jsStartsWith l "#CHROM" = false) →
        (parseVCF content).success = false ∧ (parseVCF content).variants = []
          ∧ (parseVCF content).errors ≠ []) := by
  constructor
  · simp only [parseVCF]
    split
    · simp
    · split
      · simp
      · split
        · simp
        · simp [List.isEmpty_iff]
  · intro h
    have hnone : headerEndIndex
        ((jsSplit content '\n').filter (fun l => jsTrim l ≠ "")) = none := by
      unfold headerEndIndex
      rw [List.findIdx?_eq_none_iff]
      intro x hx
      rw [List.mem_filter] at hx
      exact h x hx.1 (by simpa using hx.2)
    simp only [parseVCF]
    split
    · simp
    · rw [hnone]
      simp

/-- Witness for C8 on a headerless input. -/
theorem parseVCF_success_semantics_witness :
    (parseVCF "hello\nworld").success = false
    ∧ (parseVCF "hello\nworld").variants = []
    ∧ (parseVCF "hello\nworld").errors ≠ [] :=
  (parseVCF_success_semantics "hello\nworld").2 (by decide)

/-! ## C9 -/

/-- An emitted entry names the unordered pair of two drugs. -/
def pairMatches (a b : Drug) (e : InteractionEntry) : Bool :=
  (e.drug_a == drugName a && e.drug_b == drugName b)
    || (e.drug_a == drugName b && e.drug_b == drugName a)

/-- A loop pair is the unordered pair of two drugs. -/
def pairMatchesIdx (a b : Drug) (p : Drug × Drug) : Bool :=
  (p.1 == a && p.2 == b) || (p.1 == b && p.2 == a)

/-- Drug names determine the drug. -/
lemma drugName_beq (x y : Drug) : (drugName x == drugName y) = (x == y) := by
  revert x y
  decide

/-- The table lookup is symmetric in its two arguments. -/
lemma lookupInteraction_symm (a b : Drug) :
    lookupInteraction a b = lookupInteraction b a := by
  revert a b
  decide

/-- Matching an emitted entry is matching its source loop pair. -/
lemma pairMatches_entry (a b : Drug) (p : Drug × Drug) (s : String) :
    pairMatches a b ⟨drugName p.1, drugName p.2, s⟩ = pairMatchesIdx a b p := by
  unfold pairMatches pairMatchesIdx
  dsimp only
  rw [drugName_beq, drugName_beq, drugName_beq, drugName_beq]

/-- A matching loop pair looks up the same table row as the unordered
pair it names. -/
lemma lookup_of_pairMatchesIdx {a b : Drug} {p : Drug × Drug}
    (hm : pairMatchesIdx a b p = true) :
    lookupInteraction p.1 p.2 = lookupInteraction a b := by
  unfold pairMatchesIdx at hm
  simp only [Bool.or_eq_true, Bool.and_eq_true, beq_iff_eq] at hm
  rcases hm with ⟨h1, h2⟩ | ⟨h1, h2⟩
  · rw [h1, h2]
  · rw [h1, h2]
    exact lookupInteraction_symm b a

/-- In the ordered pairs of the nested loop over a duplicate-free drug
list, an unordered pair of two distinct requested drugs occurs exactly
once. -/
lemma pairsAfter_countP (a b : Drug) (hab : a ≠ b) :
    ∀ ds : List Drug, ds.Nodup →
      (pairsAfter ds).countP (pairMatchesIdx a b)
        = if a ∈ ds ∧ b ∈ ds then 1 else 0 := by
  intro ds
  induction ds with
  | nil => intro _; simp [pairsAfter]
  | cons d rest ih =>
    intro hnd
    rw [List.nodup_cons] at hnd
    obtain ⟨hd, hrest⟩ := hnd
    unfold pairsAfter
    rw [List.countP_append, List.countP_map, ih hrest]
    by_cases hda : d = a
    · subst hda
      have h1 : List.countP (pairMatchesIdx d b ∘ fun e => (d, e)) rest
          = rest.count b := by
        apply List.countP_congr
        intro e _
        simp [pairMatchesIdx, Function.comp, List.count, hab, Ne.symm hab,
          beq_iff_eq]
      rw [h1]
      have hbd : b ≠ d := Ne.symm hab
      by_cases hbr : b ∈ rest
      · rw [List.count_eq_one_of_mem hrest hbr,
          if_neg (fun hc => hd hc.1), if_pos ⟨List.mem_cons_self d rest,
            List.mem_cons_of_mem d hbr⟩]
      · rw [List.count_eq_zero_of_not_mem hbr, if_neg (fun hc => hd hc.1),
          if_neg (fun hc => hbr ((List.mem_cons.mp hc.2).resolve_left hbd))]
    · by_cases hdb : d = b
      · subst hdb
        have h1 : List.countP (pairMatchesIdx a d ∘ fun e => (d, e)) rest
            = rest.count a := by
          apply List.countP_congr
          intro e _
          simp [pairMatchesIdx, Function.comp, List.count, hda, beq_iff_eq]
        rw [h1]
        by_cases har : a ∈ rest
        · rw [List.count_eq_one_of_mem hrest har,
            if_neg (fun hc => hd hc.2), if_pos ⟨List.mem_cons_of_mem d har,
              List.mem_cons_self d rest⟩]
        · rw [List.count_eq_zero_of_not_mem har, if_neg (fun hc => hd hc.2),
            if_neg (fun hc => har ((List.mem_cons.mp hc.1).resolve_left (fun he => hda he.symm)))]
      · have h1 : List.countP (pairMatchesIdx a b ∘ fun e => (d, e)) rest = 0 := by
          rw [List.countP_eq_zero]
          intro e _
          simp [pairMatchesIdx, beq_iff_eq, hda, hdb]
        rw [h1]
        have hmem : (a ∈ d :: rest ∧ b ∈ d :: rest) ↔ (a ∈ rest ∧ b ∈ rest) := by
          constructor
          · rintro ⟨h1, h2⟩
            exact ⟨(List.mem_cons.mp h1).resolve_left (fun he => hda he.symm),
              (List.mem_cons.mp h2).resolve_left (fun he => hdb he.symm)⟩
          · rintro ⟨h1, h2⟩
            exact ⟨List.mem_cons_of_mem d h1, List.mem_cons_of_mem d h2⟩
        by_cases hin : a ∈ rest ∧ b ∈ rest
        · rw [if_pos hin, if_pos (hmem.mpr hin)]
        · rw [if_neg hin, if_neg (fun hc => hin (hmem.mp hc))]

/-- Counting matching emitted entries is counting matching loop pairs
whose lookup hits the table. -/
lemma countP_filterMap_detect (a b : Drug) (l : List (Drug × Drug)) :
    (l.filterMap detectStep).countP (pairMatches a b)
      = l.countP (fun p => pairMatchesIdx a b p
          && (lookupInteraction p.1 p.2).isSome) := by
  induction l with
  | nil => rfl
  | cons p rest ih =>
    rw [List.filterMap_cons, List.countP_cons]
    cases hl : lookupInteraction p.1 p.2 with
    | none =>
      have hstep : detectStep p = none := by unfold detectStep; rw [hl]
      rw [hstep]
      simp only [hl, Option.isSome_none, Bool.and_false, if_neg
        (by simp : ¬ (false = true)), Nat.add_zero]
      exact ih
    | some sev =>
      have hstep : detectStep p = some ⟨drugName p.1, drugName p.2, sev⟩ := by
        unfold detectStep; rw [hl]
      rw [hstep]
      dsimp only
      rw [List.countP_cons, ih, pairMatches_entry]
      simp [hl]

/-- C9: over a duplicate-free multi-drug request, two distinct requested
drugs whose pair is in the fixed interaction table (under either key
direction) produce exactly one interaction entry, and every entry for
that unordered pair carries the table's severity; a pair absent from the
table produces no entry; and the lookup itself is direction-independent,
so the opposite request order carries the same severity. -/
theorem drug_interactions_unordered_pair (ds : List Drug) (a b : Drug)
    (hnd : ds.Nodup) (ha : a ∈ ds) (hb : b ∈ ds) (hab : a ≠ b) :
    ((detectDrugInteractions ds).countP (pairMatches a b)
      = if (lookupInteraction a b).isSome then 1 else 0)
    ∧ (∀ e ∈ detectDrugInteractions ds, pairMatches a b e = true →
        some e.severity = lookupInteraction a b)
    ∧ lookupInteraction a b = lookupInteraction b a := by
  refine ⟨?_, ?_, lookupInteraction_symm a b⟩
  · unfold detectDrugInteractions
    rw [countP_filterMap_detect]
    by_cases hsome : (lookupInteraction a b).isSome = true
    · have hcong : ∀ p ∈ pairsAfter ds,
          (pairMatchesIdx a b p && (lookupInteraction p.1 p.2).isSome) = true
            ↔ pairMatchesIdx a b p = true := by
        intro p _
        constructor
        · intro hc
          exact (Bool.and_eq_true _ _ |>.mp hc).1
        · intro hm
          rw [hm, lookup_of_pairMatchesIdx hm, hsome]
          rfl
      rw [List.countP_congr hcong, pairsAfter_countP a b hab ds hnd,
        if_pos ⟨ha, hb⟩, if_pos hsome]
    · have hzero : ∀ p ∈ pairsAfter ds,
          ¬ ((pairMatchesIdx a b p && (lookupInteraction p.1 p.2).isSome) = true) := by
        intro p _ hc
        rw [Bool.and_eq_true] at hc
        rw [lookup_of_pairMatchesIdx hc.1] at hc
        exact hsome hc.2
      rw [List.countP_eq_zero.mpr hzero, if_neg hsome]
  · intro e he hm
    unfold detectDrugInteractions at he
    rw [List.mem_filterMap] at he
    obtain ⟨p, _, hstep⟩ := he
    unfold detectStep at hstep
    cases hl : lookupInteraction p.1 p.2 with
    | none => rw [hl] at hstep; exact absurd hstep (by simp)
    | some sev =>
      rw [hl] at hstep
      cases hstep
      rw [pairMatches_entry] at hm
      rw [← lookup_of_pairMatchesIdx hm, hl]

/-- Witness for C9 on the request pair warfarin and simvastatin, present
in the table with severity HIGH. -/
theorem drug_interactions_unordered_pair_witness :
    (detectDrugInteractions [Drug.WARFARIN, Drug.SIMVASTATIN]).countP
        (pairMatches Drug.WARFARIN Drug.SIMVASTATIN)
      = if (lookupInteraction Drug.WARFARIN Drug.SIMVASTATIN).isSome then 1 else 0 :=
  (drug_interactions_unordered_pair [Drug.WARFARIN, Drug.SIMVASTATIN]
    Drug.WARFARIN Drug.SIMVASTATIN (by decide) (by decide) (by decide) (by decide)).1

/-- C9 counterexample: a multi-drug request that repeats a drug.  The
nested loop visits the warfarin-simvastatin pair twice (once in each
order), both lookups hit the table, and the result carries two entries
for that one unordered pair, not exactly one. -/
theorem drug_interactions_duplicate_request_two_entries :
    (lookupInteraction Drug.WARFARIN Drug.SIMVASTATIN).isSome = true
    ∧ (detectDrugInteractions
        [Drug.WARFARIN, Drug.SIMVASTATIN, Drug.WARFARIN]).countP
        (pairMatches Drug.WARFARIN Drug.SIMVASTATIN) = 2 := by
  decide
